import Mathlib

/-!
Shallow embedding of the biolink-mcp repository (Python) in Lean 4.

Modelled modules:
* `src/biolink_mcp/mappers.py`  — `CATEGORY_ALIASES`, `canonical_category`
* `src/biolink_mcp/http.py`     — `Http.get` retry loop and `BiolinkHTTPError`
* `src/biolink_mcp/client.py`   — `BiolinkClient.associations` pagination,
  post-filters and `_shape_assoc` / `_strip_nones`
* `src/biolink_mcp/biolink_wrapper.py` — `BiolinkAPIWrapper.normalize_id`
  and `BiolinkAPIWrapper.get_association` (name resolution of `quote`)

Python values flowing through these functions are JSON-shaped; they are
modelled by the inductive `PyVal` below.  Python exceptions raised by the
modelled code are modelled with `Except PyExc`.  Network responses are
supplied by explicit backend functions, and the embedding returns, next to
the result, the observable request/sleep traces that the specification
talks about (request offsets, attempt counts, backoff sleeps).
-/

/-- JSON-shaped Python value: the payloads handled by the client.
`PyVal.none` stands for both Python `None` and an absent key fetched via
`dict.get` (the code under test never distinguishes the two). -/
inductive PyVal where
  | none
  | str (s : String)
  | int (n : Int)
  | list (xs : List PyVal)
  | dict (xs : List (String × PyVal))

/-- A Python dict with string keys, as used for JSON objects. -/
abbrev PyDict := List (String × PyVal)

/-- Python exceptions that the modelled code can raise. -/
inductive PyExc where
  | nameError (n : String)
  | attributeError (attr : String)
  | typeError (msg : String)

/-- Python truthiness (`bool(v)`) for the modelled value shapes. -/
def truthy : PyVal → Bool
  | .none => false
  | .str s => !s.isEmpty
  | .int n => n != 0
  | .list xs => !xs.isEmpty
  | .dict xs => !xs.isEmpty

/-- Python `a or b`: `a` when truthy, else `b`. -/
def pyOr (a b : PyVal) : PyVal := if truthy a then a else b

/-- Python `d.get(k)` on a dict: the value stored under `k`, else `None`. -/
def pyGet (d : PyDict) (k : String) : PyVal :=
  match d.find? (fun kv => kv.1 == k) with
  | Option.some kv => kv.2
  | Option.none => .none

/-- Python `v.get(k)` where `v` is an arbitrary value: only dicts carry the
`get` attribute; any other receiver raises `AttributeError`. -/
def pyGetAttr (v : PyVal) (k : String) : Except PyExc PyVal :=
  match v with
  | .dict d => .ok (pyGet d k)
  | _ => .error (.attributeError "get")

/-- Python `isinstance(v, dict)`. -/
def isPyDict : PyVal → Bool
  | .dict _ => true
  | _ => false

/-- Whether a value is Python `None`. -/
def isPyNone : PyVal → Bool
  | .none => true
  | _ => false

/- ---------------------------------------------------------------------
mappers.py
--------------------------------------------------------------------- -/

/-- `CATEGORY_ALIASES` from `mappers.py`: friendly aliases mapped to
canonical Biolink categories, in source order. -/
def CATEGORY_ALIASES : List (String × String) :=
  [("gene-to-gene", "biolink:PairwiseGeneToGeneInteraction"),
   ("interactions", "biolink:PairwiseGeneToGeneInteraction"),
   ("gene-interactions", "biolink:PairwiseGeneToGeneInteraction"),
   ("gene-diseases", "biolink:CausalGeneToDiseaseAssociation"),
   ("gene-to-disease", "biolink:CausalGeneToDiseaseAssociation"),
   ("gene-phenotypes", "biolink:GeneToPhenotypicFeatureAssociation"),
   ("phenotype-genes", "biolink:GeneToPhenotypicFeatureAssociation")]

/-- Python `str.strip()` (whitespace trimmed from both ends), on the
character list of the string. -/
def pyStrip (s : String) : String :=
  String.mk (((s.data.dropWhile Char.isWhitespace).reverse.dropWhile
    Char.isWhitespace).reverse)

/-- Python `str.lower()` (ASCII case folding, which covers every alias and
category string in the repository). -/
def pyLower (s : String) : String := String.mk (s.data.map Char.toLower)

/-- Python `str.replace(a, b)` for single-character patterns, which is all
the source uses. -/
def pyReplaceChar (a b : Char) (s : String) : String :=
  String.mk (s.data.map (fun c => if c = a then b else c))

/-- The lookup key computed inside `canonical_category`:
`value.strip().lower().replace(" ", "-").replace("_", "-")`. -/
def normKey (value : String) : String :=
  pyReplaceChar '_' '-' (pyReplaceChar ' ' '-' (pyLower (pyStrip value)))

/-- `canonical_category` from `mappers.py`:
`CATEGORY_ALIASES.get(key, value)` on the normalized key. -/
def canonical_category (value : String) : String :=
  match CATEGORY_ALIASES.lookup (normKey value) with
  | Option.some v => v
  | Option.none => value

/- ---------------------------------------------------------------------
http.py
--------------------------------------------------------------------- -/

/-- What the network yields for one attempt: an HTTP response with a status
code and a body text, or a network-level failure (`aiohttp.ClientError` /
`asyncio.TimeoutError`), carried with the exception type name and message. -/
inductive NetResp where
  | status (code : Nat) (body : String)
  | netErr (name msg : String)

/-- The `BiolinkHTTPError` exception from `http.py`: status, path, detail. -/
structure BiolinkHTTPError where
  status : Nat
  path : String
  detail : String

/-- Python string slicing `text[:n]`: the first `n` characters. -/
def pyStrTake (n : Nat) (s : String) : String := String.mk (s.data.take n)

/-- The statuses the source lists as retryable: `(429, 500, 502, 503, 504)`. -/
def retryableStatus (c : Nat) : Bool :=
  c == 429 || c == 500 || c == 502 || c == 503 || c == 504

/-- Exception escaping one attempt of the request body in `Http.get`:
either a `BiolinkHTTPError` (raised for every non-2xx status) or a
network-level error.  Both are caught by the retry `except` clause. -/
inductive GetExc where
  | http (e : BiolinkHTTPError)
  | net (name msg : String)

/-- One iteration of the `try` body of `Http.get` against the response the
backend gives for this attempt number.  A 2xx status returns the body text
(JSON decoding of the body is downstream of everything the claims state and
is not modelled); every other status raises `BiolinkHTTPError` with the
body truncated to 300 characters — the source raises it from the retryable
branch and from the non-retryable branch alike. -/
def tryOnce (backend : Nat → NetResp) (url : String) (attempt : Nat) :
    Except GetExc String :=
  match backend attempt with
  | .status c body =>
      if 200 ≤ c ∧ c < 300 then .ok body
      else if retryableStatus c then .error (.http ⟨c, url, pyStrTake 300 body⟩)
      else .error (.http ⟨c, url, pyStrTake 300 body⟩)
  | .netErr name msg => .error (.net name msg)

/-- Raising after the loop: a `BiolinkHTTPError` is re-raised as it is; a
network error is wrapped as status 599 with `type-name: message` detail. -/
def raiseLast (url : String) : GetExc → Except BiolinkHTTPError String
  | .http e => .error e
  | .net name msg => .error ⟨599, url, name ++ ": " ++ msg⟩

/-- Observable outcome of `Http.get`: the result, the number of requests
issued, and the list of backoff sleep durations performed (in order). -/
structure GetTrace where
  result : Except BiolinkHTTPError String
  requests : Nat
  sleeps : List ℚ

/-- The `for attempt in range(1, retries + 1)` loop of `Http.get`.
`left` is the number of loop iterations still available
(`retries - attempt + 1` at every reachable call); on failure the loop
sleeps `backoff * attempt` and continues while `attempt < retries`, else
breaks and raises the last exception.  The `left = 0` case is reached only
when `retries = 0`: the loop body never ran and `last_exc = None` is
wrapped as status 599 with detail `NoneType: None`. -/
def httpGetGo (backend : Nat → NetResp) (url : String) (retries : Nat)
    (backoff : ℚ) : Nat → Nat → GetTrace
  | 0, _ => ⟨.error ⟨599, url, "NoneType: None"⟩, 0, []⟩
  | left + 1, attempt =>
      match tryOnce backend url attempt with
      | .ok body => ⟨.ok body, 1, []⟩
      | .error e =>
          if attempt < retries then
            let rest := httpGetGo backend url retries backoff left (attempt + 1)
            ⟨rest.result, rest.requests + 1, backoff * (attempt : ℚ) :: rest.sleeps⟩
          else ⟨raiseLast url e, 1, []⟩

/-- `Http.get` for a fixed resolved URL: run the attempt loop starting at
attempt 1 with `retries` iterations available. -/
def httpGet (backend : Nat → NetResp) (url : String) (retries : Nat)
    (backoff : ℚ) : GetTrace :=
  httpGetGo backend url retries backoff retries 1

/- ---------------------------------------------------------------------
client.py
--------------------------------------------------------------------- -/

/-- The effective page size guardrail from `BiolinkClient.associations`:
`per_page = max(1, min(100, limit))`. -/
def perPage (limit : Int) : Int := max 1 (min 100 limit)

/-- The request path built by `BiolinkClient.associations`:
`f"entity/(entity_id)/(cat)"` with `cat = canonical_category(category)`,
interpolated verbatim. -/
def mkAssocPath (entity_id category : String) : String :=
  "entity/" ++ entity_id ++ "/" ++ canonical_category category

/-- Python slicing `xs[:m]` for an integer `m` (negative `m` counts from
the end, clamped at zero), as used by `items[:max_items]`. -/
def pySliceTo (m : Int) (xs : List α) : List α :=
  if 0 ≤ m then xs.take m.toNat
  else xs.take ((xs.length : Int) + m).toNat

/-- Row extraction from one page in `BiolinkClient.associations`:
`rows = page.get("associations") or page.get("items") or []`, then
`if not isinstance(rows, list): rows = []`. -/
def extractRows (page : PyDict) : List PyVal :=
  match pyOr (pyOr (pyGet page "associations") (pyGet page "items")) (.list []) with
  | .list xs => xs
  | _ => []

/-- The `while True` pagination loop of `BiolinkClient.associations`.
The backend maps `(limit, offset)` request params to the page it serves.
`fuel` bounds the number of iterations (the Python loop has no such bound
and can run forever against a backend that always serves full pages); a
run that would iterate further than `fuel` yields `Option.none` as its
first component.  The second component is the trace of the `offset`
values requested, in order.  Each iteration extends the accumulator with
the extracted rows, then: truncates to `max_items` and stops once the
accumulated length reaches `max_items` (when set); stops when the page
held fewer rows than `per_page`; otherwise advances the offset by
`per_page`. -/
def paginateAux (backend : Int → Int → PyDict) (pp : Int)
    (maxItems : Option Int) : Nat → Int → List PyVal →
    Option (List PyVal) × List Int
  | 0, _, _ => (Option.none, [])
  | fuel + 1, off, acc =>
      let rows := extractRows (backend pp off)
      let acc2 := acc ++ rows
      let next :=
        if (rows.length : Int) < pp then (Option.some acc2, [off])
        else
          let rest := paginateAux backend pp maxItems fuel (off + pp) acc2
          (rest.1, off :: rest.2)
      match maxItems with
      | Option.some m =>
          if (acc2.length : Int) ≥ m then (Option.some (pySliceTo m acc2), [off])
          else next
      | Option.none => next

/-- Pagination from the initial `offset` with an empty accumulator. -/
def paginate (backend : Int → Int → PyDict) (pp : Int)
    (maxItems : Option Int) (offset : Int) (fuel : Nat) :
    Option (List PyVal) × List Int :=
  paginateAux backend pp maxItems fuel offset []

/-- The `evidence_min` post-filter predicate from
`BiolinkClient.associations`: `(r.get("evidence_count") or 0) >= evidence_min`.
A non-dict row has no `get` attribute; a non-integer truthy
`evidence_count` is unordered against an integer and raises `TypeError`. -/
def evidenceKeep (evidenceMin : Int) (r : PyVal) : Except PyExc Bool := do
  let ev ← pyGetAttr r "evidence_count"
  match pyOr ev (.int 0) with
  | .int n => .ok (decide (evidenceMin ≤ n))
  | _ => .error (.typeError "not supported between instances")

/-- The `sources` post-filter predicate from `BiolinkClient.associations`:
`(r.get("aggregator_knowledge_source") or r.get("provided_by")) in allowed`
where `allowed` is a set of strings.  `None` and integers are hashable and
simply not members; lists and dicts are unhashable and raise `TypeError`. -/
def sourceKeep (allowed : List String) (r : PyVal) : Except PyExc Bool := do
  let a ← pyGetAttr r "aggregator_knowledge_source"
  let b ← pyGetAttr r "provided_by"
  match pyOr a b with
  | .str s => .ok (allowed.contains s)
  | .none => .ok false
  | .int _ => .ok false
  | .list _ => .error (.typeError "unhashable type")
  | .dict _ => .error (.typeError "unhashable type")

/-- A Python list comprehension with a possibly-raising predicate,
evaluated left to right; the first exception aborts the whole
comprehension. -/
def filterExc (p : α → Except PyExc Bool) : List α → Except PyExc (List α)
  | [] => .ok []
  | x :: xs => do
      let b ← p x
      let rest ← filterExc p xs
      .ok (if b then x :: rest else rest)

/-- `_strip_nones` from `client.py`: drop every key whose value is `None`. -/
def stripNones (d : PyDict) : PyDict := d.filter (fun kv => !isPyNone kv.2)

/-- `BiolinkClient._shape_assoc`: compact row shaping.  The dict literal in
the source is evaluated field by field in source order;
`subj = r.get("subject") or {}` keeps a truthy string subject as is, so the
later `subj.get("id")` raises `AttributeError` for it (same for `object`).
The `predicate` entry guards with `isinstance(..., dict)`. -/
def shapeAssoc (r : PyVal) : Except PyExc PyDict := do
  let rsubj ← pyGetAttr r "subject"
  let robj ← pyGetAttr r "object"
  let subj := pyOr rsubj (.dict [])
  let obj := pyOr robj (.dict [])
  let subjId ← pyGetAttr subj "id"
  let subjectId := pyOr subjId rsubj
  let subjLabel ← pyGetAttr subj "label"
  let rSubjLabel ← pyGetAttr r "subject_label"
  let subjectLabel := pyOr subjLabel rSubjLabel
  let rpred ← pyGetAttr r "predicate"
  let predicate ←
    if isPyDict rpred then pyGetAttr (pyOr rpred (.dict [])) "id"
    else .ok rpred
  let objId ← pyGetAttr obj "id"
  let objectId := pyOr objId robj
  let objLabel ← pyGetAttr obj "label"
  let rObjLabel ← pyGetAttr r "object_label"
  let objectLabel := pyOr objLabel rObjLabel
  let evidenceCount ← pyGetAttr r "evidence_count"
  let aks ← pyGetAttr r "aggregator_knowledge_source"
  let pb ← pyGetAttr r "provided_by"
  let source := pyOr aks pb
  .ok [("subject_id", subjectId),
       ("subject_label", subjectLabel),
       ("predicate", predicate),
       ("object_id", objectId),
       ("object_label", objectLabel),
       ("evidence_count", evidenceCount),
       ("source", source)]

/-- The post-filter stage of `BiolinkClient.associations`: the
`evidence_min` filter when set, then the `sources` filter when the given
collection is truthy (non-empty). -/
def postFilter (evidenceMin : Option Int) (sources : List String)
    (items : List PyVal) : Except PyExc (List PyVal) := do
  let items ←
    match evidenceMin with
    | Option.some m => filterExc (evidenceKeep m) items
    | Option.none => .ok items
  if sources.isEmpty then .ok items
  else filterExc (sourceKeep sources) items

/-- `BiolinkClient.associations` end to end over an abstract backend for
the built path: paginate, post-filter, then shape compactly (or return the
raw rows).  `Option.none` means the pagination fuel ran out; otherwise the
result carries the exception the call would raise or the returned mapping,
paired with the request-offset trace. -/
def associationsRun (backend : Int → Int → PyDict)
    (entityId category : String) (limit offset : Int)
    (maxItems evidenceMin : Option Int) (sources : List String)
    (compact : Bool) (fuel : Nat) :
    Option (Except PyExc PyDict × List Int) :=
  let cat := canonical_category category
  match paginate backend (perPage limit) maxItems offset fuel with
  | (Option.none, _) => Option.none
  | (Option.some items, reqs) =>
      Option.some (
        (do
          let items ← postFilter evidenceMin sources items
          if compact then do
            let shaped ← items.mapM (fun r => do
              let s ← shapeAssoc r
              pure (PyVal.dict (stripNones s)))
            .ok [("items", .list shaped),
                 ("count", .int shaped.length),
                 ("category", .str cat),
                 ("entity_id", .str entityId)]
          else
            .ok [("items", .list items),
                 ("count", .int items.length),
                 ("category", .str cat),
                 ("entity_id", .str entityId)]),
        reqs)

/- ---------------------------------------------------------------------
biolink_wrapper.py
--------------------------------------------------------------------- -/

/-- A search response as `BiolinkAPIWrapper.normalize_id` consumes it: the
HTTP status and the value stored under the `items` key of the decoded JSON
body (`Option.none` when the key is missing). -/
structure SearchResp where
  status : Nat
  items : Option PyVal

/-- The all-null triple returned by `normalize_id` on failure. -/
def nullTriple : PyDict :=
  [("id", .none), ("full_name", .none), ("category", .none)]

/-- `BiolinkAPIWrapper.normalize_id`: a non-200 status returns the
all-null triple; then `items = data.get("items", [])` and a falsy `items`
returns the all-null triple; otherwise `top = items[0]` and the triple is
read off `top` with `dict.get` (raising `AttributeError` when `top` is not
a mapping, and `TypeError` when a truthy non-list `items` is indexed —
neither arises on list-shaped responses). -/
def normalize_id (resp : SearchResp) : Except PyExc PyDict :=
  if resp.status ≠ 200 then .ok nullTriple
  else
    let items := resp.items.getD (.list [])
    if !truthy items then .ok nullTriple
    else
      match items with
      | .list (top :: _) => do
          let i ← pyGetAttr top "id"
          let f ← pyGetAttr top "full_name"
          let c ← pyGetAttr top "category"
          .ok [("id", i), ("full_name", f), ("category", c)]
      | _ => .error (.typeError "not subscriptable")

/-- The global names bound at module level in `biolink_wrapper.py`: its
imports (`logging`, `aiohttp`, the `typing` names, the `pydantic` names)
and its own top-level definitions.  `urllib.parse.quote` is not among
them: no import of `quote` exists anywhere in the module. -/
def wrapperModuleGlobals : List String :=
  ["logging", "aiohttp", "Optional", "List", "Dict", "Any",
   "BaseModel", "Field", "logger", "BiolinkAPIWrapper", "BiolinkTools"]

/-- Python builtin names (the final scope consulted after module globals).
The list covers the standard builtins namespace; what matters here is that
`quote` is not a Python builtin. -/
def pythonBuiltins : List String :=
  ["abs", "aiter", "all", "anext", "any", "ascii", "bin", "bool",
   "breakpoint", "bytearray", "bytes", "callable", "chr", "classmethod",
   "compile", "complex", "delattr", "dict", "dir", "divmod", "enumerate",
   "eval", "exec", "filter", "float", "format", "frozenset", "getattr",
   "globals", "hasattr", "hash", "help", "hex", "id", "input", "int",
   "isinstance", "issubclass", "iter", "len", "list", "locals", "map",
   "max", "memoryview", "min", "next", "object", "oct", "open", "ord",
   "pow", "print", "property", "range", "repr", "reversed", "round",
   "set", "setattr", "slice", "sorted", "staticmethod", "str", "sum",
   "super", "tuple", "type", "vars", "zip"]

/-- Name resolution for code running in `biolink_wrapper.py`: module
globals, then builtins (no enclosing function scope binds `quote`). -/
def wrapperResolves (n : String) : Bool :=
  wrapperModuleGlobals.contains n || pythonBuiltins.contains n

/-- RFC 3986 unreserved characters, which `urllib.parse.quote` leaves
as they are. -/
def isUnreservedChar (c : Char) : Bool :=
  c.isAlphanum || c = '-' || c = '.' || c = '_' || c = '~'

/-- Uppercase hexadecimal digit for a value below 16. -/
def hexDigit (n : Nat) : Char :=
  if n < 10 then Char.ofNat (48 + n) else Char.ofNat (55 + n)

/-- Percent-encode one character (ASCII range, which covers every input
the repository builds paths from). -/
def percentEncodeChar (c : Char) : List Char :=
  ['%', hexDigit (c.toNat / 16 % 16), hexDigit (c.toNat % 16)]

/-- `urllib.parse.quote(s, safe="")`: every character outside the
unreserved set is percent-encoded (no extra safe characters). -/
def pyQuoteAll (s : String) : String :=
  String.mk (s.data.flatMap
    (fun c => if isUnreservedChar c then [c] else percentEncodeChar c))

/-- `BiolinkAPIWrapper.get_association` (the variant `server.py` imports):
its first statement is `id_enc = quote(entity_id, safe="")`, so the body
first resolves the name `quote`; if that fails a `NameError` is raised and
nothing further runs — in particular no URL is built and no request is
issued.  On success (hypothetically) it would return the request about to
be issued: the URL built from the encoded segments, and the query params. -/
def wrapper_get_association (baseUrl entityId category : String)
    (path : Option String) (offset limit : Int) :
    Except PyExc (String × PyDict) :=
  if wrapperResolves "quote" then
    let idEnc := pyQuoteAll entityId
    let catEnc := pyQuoteAll category
    let url := baseUrl ++ "/entity/" ++ idEnc ++ "/" ++ catEnc
    let params := [("offset", PyVal.int offset), ("limit", PyVal.int limit)]
    let params :=
      match path with
      | Option.some p =>
          if truthy (.str p) then params ++ [("path", PyVal.str p)] else params
      | Option.none => params
    .ok (url, params)
  else .error (.nameError "quote")

/-- `BiolinkTools.get_association` from `biolink_wrapper.py` (the class
`server.py` registers): a direct delegation to
`BiolinkAPIWrapper.get_association`. -/
def tools_get_association (baseUrl entityId category : String)
    (path : Option String) (offset limit : Int) :
    Except PyExc (String × PyDict) :=
  wrapper_get_association baseUrl entityId category path offset limit

/- ---------------------------------------------------------------------
Spec-side definitions, used only to compare the code against the
specification text of the claims.
--------------------------------------------------------------------- -/

/-- RFC 3986 reserved characters (gen-delims and sub-delims), the
characters the specification says are percent-encoded in path segments
(notably the colon). -/
def isReservedChar (c : Char) : Bool :=
  c = ':' || c = '/' || c = '?' || c = '#' || c = '[' || c = ']' ||
  c = '@' || c = '!' || c = '$' || c = '&' || c = '\x27' || c = '(' ||
  c = ')' || c = '*' || c = '+' || c = ',' || c = ';' || c = '='

/-- Percent-encoding of reserved characters, following the specification
words "percent-encoded for reserved characters (notably colon)". -/
def specPercentEncodeReserved (s : String) : String :=
  String.mk (s.data.flatMap
    (fun c => if isReservedChar c then percentEncodeChar c else [c]))

/-- The claim words "the first non-null of `aggregator_knowledge_source`
and `provided_by`": null-ness, not Python truthiness, decides which field
is consulted. -/
def specSourceOf (r : PyDict) : PyVal :=
  match pyGet r "aggregator_knowledge_source" with
  | .none => pyGet r "provided_by"
  | v => v

/-- The source post-filter as the claim words it: keep a row iff the first
non-null source field is a member of the allowed set. -/
def specSourceKeep (allowed : List String) (r : PyDict) : Bool :=
  match specSourceOf r with
  | .str s => allowed.contains s
  | _ => false

/-- A successful HTTP status in the sense the specification itself uses
(its transport treats statuses in [200, 300) as success). -/
def specSuccessStatus (c : Nat) : Bool := 200 ≤ c && c < 300

/- ---------------------------------------------------------------------
Claim theorems
--------------------------------------------------------------------- -/

/-- C10: for every input, invoking `get_association` on the wrapper
variant that `server.py` imports and registers raises a `NameError`
before any HTTP request is issued, because the name `quote` is used in
the function body but never imported in `biolink_wrapper.py`.  The
`Except.error` result means the function aborts before producing the
request it would otherwise return. -/
theorem claim_C10_get_association_name_error
    (baseUrl entityId category : String) (path : Option String)
    (offset limit : Int) :
    wrapper_get_association baseUrl entityId category path offset limit =
        .error (.nameError "quote") ∧
    tools_get_association baseUrl entityId category path offset limit =
        .error (.nameError "quote") := by
  have h : wrapperResolves "quote" = false := by decide
  constructor <;>
    simp [tools_get_association, wrapper_get_association, h]

/-- C2 counterexample: the associations request path is built by verbatim
f-string interpolation, not percent-encoding; at entity id
`MONDO:0019391` and category alias `gene-diseases` the built path keeps
the colons, so it differs from the percent-encoded path the claim
describes. -/
theorem claim_C2_percent_encoding_counterexample :
    mkAssocPath "MONDO:0019391" "gene-diseases" =
        "entity/MONDO:0019391/biolink:CausalGeneToDiseaseAssociation" ∧
    mkAssocPath "MONDO:0019391" "gene-diseases" ≠
        "entity/" ++ specPercentEncodeReserved "MONDO:0019391" ++ "/" ++
          specPercentEncodeReserved (canonical_category "gene-diseases") := by
  constructor
  · decide
  · decide

/-- C2 amended: for every associations call, the path is
`entity/` ++ entity id ++ `/` ++ resolved category, used verbatim with no
percent-encoding; in particular a colon in the entity id stays a literal
colon in the request path. -/
theorem claim_C2_path_built_verbatim :
    (∀ entityId category : String,
        mkAssocPath entityId category =
          "entity/" ++ entityId ++ "/" ++ canonical_category category) ∧
    (∀ entityId category : String, ':' ∈ entityId.data →
        ':' ∈ (mkAssocPath entityId category).data) := by
  constructor
  · intro entityId category
    rfl
  · intro entityId category h
    simp [mkAssocPath, String.data_append, h]

/-- Closed instance of the amended C2 theorem at a CURIE containing a
colon. -/
theorem claim_C2_path_built_verbatim_witness :
    mkAssocPath "MONDO:0019391" "gene-diseases" =
        "entity/" ++ "MONDO:0019391" ++ "/" ++
          canonical_category "gene-diseases" ∧
    ':' ∈ (mkAssocPath "MONDO:0019391" "gene-diseases").data :=
  ⟨claim_C2_path_built_verbatim.1 "MONDO:0019391" "gene-diseases",
   claim_C2_path_built_verbatim.2 "MONDO:0019391" "gene-diseases" (by decide)⟩

/-- A raw association row whose `subject` is a plain string id. -/
def rowStringSubject : PyVal := .dict [("subject", .str "GENE:1")]

/-- The raw association row from the specification shaping example:
`subject` a mapping with id and label, `predicate` a plain string. -/
def rowDictSubject : PyVal :=
  .dict [("subject", .dict [("id", .str "A"), ("label", .str "a")]),
         ("predicate", .str "p")]

/-- C5: compact shaping on the documented variant shapes.  The
mapping-subject example shapes exactly as the specification says, with
every null field removed; but a string-valued `subject` does not yield
`subject_id` equal to that string — `subj = r.get("subject") or ()` keeps
the truthy string, and `subj.get("id")` raises `AttributeError`, so the
claim's string-subject variant crashes instead of shaping. -/
theorem claim_C5_shape_assoc_string_subject :
    shapeAssoc rowStringSubject = .error (.attributeError "get") ∧
    (shapeAssoc rowDictSubject).map stripNones =
        .ok [("subject_id", .str "A"), ("subject_label", .str "a"),
             ("predicate", .str "p")] := by
  constructor
  · rfl
  · rfl

/-- Every value stored in `CATEGORY_ALIASES` re-normalizes to a key that
misses the alias table, so canonical values are fixed points of
`canonical_category`. -/
theorem canonical_value_fixed (key v : String)
    (h : CATEGORY_ALIASES.lookup key = Option.some v) :
    canonical_category v = v := by
  simp only [CATEGORY_ALIASES, List.lookup] at h
  repeat' split at h
  all_goals first
    | (cases h; decide)
    | cases h

/-- C8: `canonical_category` is insensitive to letter case and to
space/underscore-versus-hyphen separators (two inputs with the same
normalized key and a table hit resolve identically), it is idempotent on
every string, and every input whose normalized key misses the alias table
passes through unchanged (and the function, being total, never errors). -/
theorem claim_C8_canonical_category :
    (∀ s t : String, normKey s = normKey t →
        (CATEGORY_ALIASES.lookup (normKey s)).isSome →
        canonical_category s = canonical_category t) ∧
    (∀ s : String,
        canonical_category (canonical_category s) = canonical_category s) ∧
    (∀ s : String, CATEGORY_ALIASES.lookup (normKey s) = Option.none →
        canonical_category s = s) := by
  refine ⟨?_, ?_, ?_⟩
  · intro s t heq hsome
    rw [heq] at hsome
    unfold canonical_category
    rw [heq]
    cases h : CATEGORY_ALIASES.lookup (normKey t) with
    | none => rw [h] at hsome; simp at hsome
    | some v => rfl
  · intro s
    unfold canonical_category
    cases h : CATEGORY_ALIASES.lookup (normKey s) with
    | none => simp [canonical_category, h]
    | some v =>
        have hfix := canonical_value_fixed (normKey s) v h
        simpa [canonical_category] using hfix
  · intro s h
    simp [canonical_category, h]

/-- Closed instance of the C8 theorem: a case/separator variant of the
`gene-to-gene` alias resolves like the alias itself, idempotence at the
`interactions` alias, and pass-through of an unknown category string. -/
theorem claim_C8_canonical_category_witness :
    canonical_category "GENE To_Gene " = canonical_category "gene-to-gene" ∧
    canonical_category (canonical_category "interactions") =
        canonical_category "interactions" ∧
    canonical_category "biolink:BrandNewCategory" =
        "biolink:BrandNewCategory" :=
  ⟨claim_C8_canonical_category.1 "GENE To_Gene " "gene-to-gene"
      (by decide) (by decide),
   claim_C8_canonical_category.2.1 "interactions",
   claim_C8_canonical_category.2.2 "biolink:BrandNewCategory" (by decide)⟩

/-- A fake backend serving pages of sizes 100, 100, 37 at offsets
0, 100, 200 (and nothing beyond), under the `associations` response key. -/
def backendC3 : Int → Int → PyDict := fun _ off =>
  [("associations", PyVal.list (List.replicate
      (if off = 0 then 100 else if off = 100 then 100 else
       if off = 200 then 37 else 0)
      (PyVal.dict [])))]

set_option maxRecDepth 40000 in
/-- C3: the effective per-page size `max(1, min(100, limit))` computed by
the code equals the claim's `min(100, max(1, limit))` for every limit, and
against a backend serving pages of sizes 100, 100, 37 with `limit = 100`
and no `max_items`, pagination accumulates exactly 237 rows over exactly
3 requests at offsets 0, 100, 200, stopping at the short page; in
general, a page with fewer rows than the effective page size ends the
loop at that offset with no further request. -/
theorem claim_C3_pagination_accumulates :
    (∀ limit : Int, perPage limit = min 100 (max 1 limit)) ∧
    (paginate backendC3 (perPage 100) Option.none 0 10).1.map List.length =
        Option.some 237 ∧
    (paginate backendC3 (perPage 100) Option.none 0 10).2 = [0, 100, 200] ∧
    (∀ (backend : Int → Int → PyDict) (pp off : Int) (fuel : Nat),
        0 < fuel → ((extractRows (backend pp off)).length : Int) < pp →
        paginate backend pp Option.none off fuel =
          (Option.some (extractRows (backend pp off)), [off])) := by
  refine ⟨fun limit => ?_, by decide, by decide, ?_⟩
  · unfold perPage
    omega
  · intro backend pp off fuel hfuel hshort
    obtain ⟨k, rfl⟩ : ∃ k, fuel = k + 1 := ⟨fuel - 1, by omega⟩
    unfold paginate paginateAux
    simp only [List.nil_append]
    rw [if_pos hshort]

/-- A fake backend serving a full page of 100 rows at every offset. -/
def backendFull100 : Int → Int → PyDict := fun _ _ =>
  [("items", PyVal.list (List.replicate 100 (PyVal.dict [])))]

set_option maxRecDepth 40000 in
/-- C4: with `max_items` set, as soon as the accumulated row count reaches
`max_items` after a page fetch, the accumulator is truncated to exactly
`max_items` and the loop stops; at least one page request is always
issued.  Concretely against full pages of 100: `max_items = 50` yields
exactly 50 items after exactly 1 request, and `max_items = 0` yields
empty items after exactly 1 request. -/
theorem claim_C4_max_items_truncates :
    ((paginate backendFull100 (perPage 100) (Option.some 50) 0 10).1.map
        List.length = Option.some 50 ∧
      (paginate backendFull100 (perPage 100) (Option.some 50) 0 10).2 = [0]) ∧
    (paginate backendFull100 (perPage 100) (Option.some 0) 0 10).1 =
        Option.some [] ∧
    (paginate backendFull100 (perPage 100) (Option.some 0) 0 10).2 = [0] ∧
    (∀ (backend : Int → Int → PyDict) (pp m off : Int) (fuel : Nat),
        0 < fuel → 0 ≤ m →
        m ≤ ((extractRows (backend pp off)).length : Int) →
        paginate backend pp (Option.some m) off fuel =
          (Option.some (pySliceTo m (extractRows (backend pp off))), [off]) ∧
        (pySliceTo m (extractRows (backend pp off))).length = m.toNat) ∧
    (∀ (backend : Int → Int → PyDict) (pp off : Int)
        (maxItems : Option Int) (fuel : Nat), 0 < fuel →
        (paginate backend pp maxItems off fuel).2 ≠ []) := by
  refine ⟨⟨by decide, by decide⟩, by rfl, by decide, ?_, ?_⟩
  · intro backend pp m off fuel hfuel hm hlen
    obtain ⟨k, rfl⟩ : ∃ k, fuel = k + 1 :=
      ⟨fuel - 1, by omega⟩
    constructor
    · unfold paginate paginateAux
      simp only [List.nil_append]
      rw [if_pos (by exact hlen)]
    · unfold pySliceTo
      rw [if_pos hm]
      rw [List.length_take]
      omega
  · intro backend pp off maxItems fuel hfuel
    obtain ⟨k, rfl⟩ : ∃ k, fuel = k + 1 :=
      ⟨fuel - 1, by omega⟩
    unfold paginate paginateAux
    cases maxItems with
    | none =>
        simp only []
        split
        · simp
        · simp
    | some m =>
        simp only []
        split
        · simp
        · split
          · simp
          · simp

/-- Closed instance of the C4 theorem: the general truncation conjunct at
the 100-row backend with `max_items = 7`, and the at-least-one-request
conjunct at fuel 1. -/
theorem claim_C4_max_items_truncates_witness :
    (paginate backendFull100 100 (Option.some 7) 0 1 =
        (Option.some (pySliceTo 7 (extractRows (backendFull100 100 0))), [0]) ∧
      (pySliceTo 7 (extractRows (backendFull100 100 0))).length =
        Int.toNat 7) ∧
    (paginate backendFull100 100 Option.none 0 1).2 ≠ [] :=
  ⟨claim_C4_max_items_truncates.2.2.2.1 backendFull100 100 7 0 1
      (by decide) (by decide) (by decide),
   claim_C4_max_items_truncates.2.2.2.2 backendFull100 100 0 Option.none 1
      (by decide)⟩

/-- A backend answering 404 to every attempt. -/
def backend404 : Nat → NetResp := fun _ => .status 404 "not found"

/-- A backend answering 503 on attempts 1 and 2, then 200 with body `ok`. -/
def backend503then200 : Nat → NetResp := fun a =>
  if a ≤ 2 then .status 503 "unavailable" else .status 200 "ok"

/-- A backend failing at the network level on attempts 1 and 2
(`aiohttp.ClientError`), then answering 200 with body `ok`. -/
def backendNetThen200 : Nat → NetResp := fun a =>
  if a ≤ 2 then .netErr "ClientConnectorError" "connection refused"
  else .status 200 "ok"

/-- A backend timing out on attempts 1 and 2, then answering 200. -/
def backendTimeoutThen200 : Nat → NetResp := fun a =>
  if a ≤ 2 then .netErr "TimeoutError" "" else .status 200 "ok"

/-- A backend answering 500 to every attempt. -/
def backend500 : Nat → NetResp := fun _ => .status 500 "server error"

set_option maxRecDepth 40000 in
/-- C1: against a server answering 404 (a non-retryable 4xx per the spec)
with the default `retries = 3`, `Http.get` does NOT raise after one
request: the `except` clause catches the `BiolinkHTTPError` raised for
the 404, so three requests are issued with two backoff sleeps before the
404 error finally surfaces. -/
theorem claim_C1_nonretryable_status_is_retried (b : ℚ) :
    (httpGet backend404 "entity/X" 3 b).result =
        .error ⟨404, "entity/X", "not found"⟩ ∧
    (httpGet backend404 "entity/X" 3 b).requests = 3 ∧
    (httpGet backend404 "entity/X" 3 b).sleeps = [b * 1, b * 2] := by
  have htake : pyStrTake 300 "not found" = "not found" := by decide
  refine ⟨?_, ?_, ?_⟩ <;>
    simp [httpGet, httpGetGo, tryOnce, backend404, retryableStatus,
      raiseLast, htake]

/-- Against a server that always answers 500, every reachable loop state
with `left` attempts remaining fails all of them and surfaces a status
500 error after exactly `left` further requests. -/
theorem httpGetGo_backend500 (url : String) (retries : Nat) (b : ℚ) :
    ∀ left attempt, 1 ≤ left → attempt + left = retries + 1 →
    (httpGetGo backend500 url retries b left attempt).result =
        .error ⟨500, url, "server error"⟩ ∧
    (httpGetGo backend500 url retries b left attempt).requests = left := by
  intro left
  induction left with
  | zero => intro attempt h1 _; omega
  | succ k ih =>
      intro attempt _ h2
      unfold httpGetGo
      have htry : tryOnce backend500 url attempt =
          .error (.http ⟨500, url, "server error"⟩) := by
        simp [tryOnce, backend500, retryableStatus]
        decide
      rw [htry]
      by_cases hlt : attempt < retries
      · have hk : 1 ≤ k := by omega
        have hrec := ih (attempt + 1) hk (by omega)
        simp only [hlt, if_true]
        exact ⟨hrec.1, by simp [hrec.2]⟩
      · have hk0 : k = 0 := by omega
        simp [hlt, raiseLast]
        omega

/-- C6: `Http.get` retries on retryable statuses, network failures and
timeouts, sleeping `backoff * attempt_number` between attempts.  A
backend answering 503 twice then 200 succeeds after exactly 3 requests
with backoff sleeps `b * 1` and `b * 2` (likewise for a connection error
and for a timeout), and a backend always answering 500 makes `Http.get`
with any configured `retries ≥ 1` issue exactly `retries` requests and
then surface an HTTP error of status 500. -/
theorem claim_C6_retry_policy (b : ℚ) (retries : Nat) (hr : 1 ≤ retries) :
    httpGet backend503then200 "search" 3 b =
        ⟨.ok "ok", 3, [b * 1, b * 2]⟩ ∧
    httpGet backendNetThen200 "search" 3 b =
        ⟨.ok "ok", 3, [b * 1, b * 2]⟩ ∧
    httpGet backendTimeoutThen200 "search" 3 b =
        ⟨.ok "ok", 3, [b * 1, b * 2]⟩ ∧
    (httpGet backend500 "search" retries b).result =
        .error ⟨500, "search", "server error"⟩ ∧
    (httpGet backend500 "search" retries b).requests = retries := by
  have h500 := httpGetGo_backend500 "search" retries b retries 1 hr (by omega)
  refine ⟨?_, ?_, ?_, h500.1, h500.2⟩ <;>
    simp [httpGet, httpGetGo, tryOnce, backend503then200, backendNetThen200,
      backendTimeoutThen200, retryableStatus, raiseLast, pyStrTake]

/-- Closed instance of the C6 theorem at the default configuration
`retries = 3`, `backoff = 0.75`. -/
theorem claim_C6_retry_policy_witness :
    (httpGet backend500 "search" 3 (3 / 4)).result =
        .error ⟨500, "search", "server error"⟩ ∧
    (httpGet backend500 "search" 3 (3 / 4)).requests = 3 :=
  ⟨(claim_C6_retry_policy (3 / 4) 3 (by decide)).2.2.2.1,
   (claim_C6_retry_policy (3 / 4) 3 (by decide)).2.2.2.2⟩

/-- A row whose `aggregator_knowledge_source` is the empty string while
`provided_by` is `X`. -/
def rowEmptyAggregator : PyDict :=
  [("aggregator_knowledge_source", .str ""), ("provided_by", .str "X")]

/-- C7 counterexample: the source post-filter resolves the source field
with Python `or` (truthiness), not by first non-null.  On a row with an
empty-string `aggregator_knowledge_source` and `provided_by = X`, the
code keeps the row for `sources = (X)`, while the claim's first non-null
field is the empty string, not a member, so the claim says the row is
dropped. -/
theorem claim_C7_source_filter_counterexample :
    sourceKeep ["X"] (.dict rowEmptyAggregator) = .ok true ∧
    specSourceOf rowEmptyAggregator = .str "" ∧
    specSourceKeep ["X"] rowEmptyAggregator = false := by
  refine ⟨rfl, rfl, rfl⟩

/-- Rows used to evaluate the post-filter stage concretely. -/
def rowEvidence (n : Int) : PyVal := .dict [("evidence_count", .int n)]

/-- A row with no `evidence_count` and no source fields. -/
def rowBare : PyVal := .dict []

/-- A row whose only source field is `provided_by`. -/
def rowProvidedBy (s : String) : PyVal := .dict [("provided_by", .str s)]

/-- A row whose only source field is `aggregator_knowledge_source`. -/
def rowAggregator (s : String) : PyVal :=
  .dict [("aggregator_knowledge_source", .str s)]

/-- C7 amended: rows are post-filtered after accumulation.  With
`evidence_min` set, a row is kept iff its `evidence_count` (0 when
absent) is at least `evidence_min`.  With a non-empty `sources`
collection, the resolved source is `aggregator_knowledge_source` when
that is a non-empty string and `provided_by` otherwise; a row is kept iff
the resolved source is a string belonging to the collection, so rows with
neither source field present are dropped.  The closing conjunct runs the
post-filter stage on concrete rows: `evidence_min = 5` keeps exactly the
rows with count at least 5, and `sources = (X)` keeps exactly the
`X`-sourced rows, dropping the sourceless one. -/
theorem claim_C7_post_filters :
    (∀ (m : Int) (d : PyDict) (n : Int),
        pyGet d "evidence_count" = .int n →
        evidenceKeep m (.dict d) = .ok (decide (m ≤ n))) ∧
    (∀ (m : Int) (d : PyDict),
        pyGet d "evidence_count" = .none →
        evidenceKeep m (.dict d) = .ok (decide (m ≤ 0))) ∧
    (∀ (allowed : List String) (d : PyDict) (s : String),
        pyGet d "aggregator_knowledge_source" = .str s → s ≠ "" →
        sourceKeep allowed (.dict d) = .ok (allowed.contains s)) ∧
    (∀ (allowed : List String) (d : PyDict) (s : String),
        truthy (pyGet d "aggregator_knowledge_source") = false →
        pyGet d "provided_by" = .str s →
        sourceKeep allowed (.dict d) = .ok (allowed.contains s)) ∧
    (∀ (allowed : List String) (d : PyDict),
        pyGet d "aggregator_knowledge_source" = .none →
        pyGet d "provided_by" = .none →
        sourceKeep allowed (.dict d) = .ok false) ∧
    postFilter (Option.some 5) []
        [rowEvidence 7, rowBare, rowEvidence 4, rowEvidence 5] =
      .ok [rowEvidence 7, rowEvidence 5] ∧
    postFilter Option.none ["X"]
        [rowProvidedBy "X", rowBare, rowAggregator "Y"] =
      .ok [rowProvidedBy "X"] := by
  refine ⟨?_, ?_, ?_, ?_, ?_, rfl, rfl⟩
  · intro m d n h
    by_cases hn : n = 0
    · simp [evidenceKeep, pyGetAttr, h, pyOr, truthy, hn, Except.bind, bind]
    · simp [evidenceKeep, pyGetAttr, h, pyOr, truthy, hn, Except.bind, bind]
  · intro m d h
    simp [evidenceKeep, pyGetAttr, h, pyOr, truthy, Except.bind, bind]
  · intro allowed d s h hs
    have hs2 : s.isEmpty = false := by
      rw [Bool.eq_false_iff]
      intro hcon
      exact hs ((String.isEmpty_iff s).mp hcon)
    simp [sourceKeep, pyGetAttr, h, pyOr, truthy, hs2, Except.bind, bind]
  · intro allowed d s ha h
    simp [sourceKeep, pyGetAttr, h, pyOr, ha, Except.bind, bind]
  · intro allowed d ha hb
    simp [sourceKeep, pyGetAttr, ha, hb, pyOr, truthy, Except.bind, bind]

/-- Closed instance of the amended C7 theorem on concrete rows: an
`evidence_count` of 7 against threshold 5, an absent `evidence_count`
against threshold 5, an `X` aggregator source, a `provided_by`-only
source, and a sourceless row. -/
theorem claim_C7_post_filters_witness :
    evidenceKeep 5 (rowEvidence 7) = .ok (decide ((5 : Int) ≤ 7)) ∧
    evidenceKeep 5 rowBare = .ok (decide ((5 : Int) ≤ 0)) ∧
    sourceKeep ["X"] (rowAggregator "X") = .ok (["X"].contains "X") ∧
    sourceKeep ["X"] (rowProvidedBy "X") = .ok (["X"].contains "X") ∧
    sourceKeep ["X"] rowBare = .ok false :=
  ⟨claim_C7_post_filters.1 5 [("evidence_count", .int 7)] 7 rfl,
   claim_C7_post_filters.2.1 5 [] rfl,
   claim_C7_post_filters.2.2.1 ["X"]
     [("aggregator_knowledge_source", .str "X")] "X" rfl (by decide),
   claim_C7_post_filters.2.2.2.1 ["X"] [("provided_by", .str "X")] "X"
     rfl rfl,
   claim_C7_post_filters.2.2.2.2.1 ["X"] [] rfl rfl⟩

/-- The first item of the search response used to test `normalize_id`. -/
def searchItem : PyVal :=
  .dict [("id", .str "HGNC:11998"),
         ("full_name", .str "tumor protein p53"),
         ("category", .str "biolink:Gene")]

/-- C9 counterexample: `normalize_id` checks `status != 200`, not
non-success.  Status 201 is a success status in the specification's own
sense (2xx), and the response has a non-empty result set, yet the
function returns the all-null triple instead of the first item's
fields. -/
theorem claim_C9_normalize_id_counterexample :
    specSuccessStatus 201 = true ∧
    normalize_id ⟨201, Option.some (.list [searchItem])⟩ = .ok nullTriple ∧
    pyGet nullTriple "id" = .none ∧
    pyGetAttr searchItem "id" = .ok (.str "HGNC:11998") ∧
    PyVal.none ≠ PyVal.str "HGNC:11998" := by
  refine ⟨rfl, rfl, rfl, rfl, by simp⟩

/-- C9 amended: `normalize_id` returns the all-null triple without
raising when the response status is anything other than 200 or when the
result set is missing or empty, and on a 200 status with a non-empty
result list of mappings it returns the first item's id, full_name and
category fields. -/
theorem claim_C9_normalize_id_nullsafe :
    (∀ r : SearchResp, r.status ≠ 200 → normalize_id r = .ok nullTriple) ∧
    (∀ r : SearchResp, r.items = Option.none →
        normalize_id r = .ok nullTriple) ∧
    (∀ r : SearchResp, r.items = Option.some (.list []) →
        normalize_id r = .ok nullTriple) ∧
    (∀ (status : Nat) (top : PyDict) (rest : List PyVal), status = 200 →
        normalize_id ⟨status, Option.some (.list (PyVal.dict top :: rest))⟩ =
          .ok [("id", pyGet top "id"), ("full_name", pyGet top "full_name"),
               ("category", pyGet top "category")]) := by
  refine ⟨?_, ?_, ?_, ?_⟩
  · intro r h
    simp [normalize_id, h]
  · intro r h
    by_cases hs : r.status = 200
    · simp [normalize_id, hs, h, truthy]
    · simp [normalize_id, hs]
  · intro r h
    by_cases hs : r.status = 200
    · simp [normalize_id, hs, h, truthy]
    · simp [normalize_id, hs]
  · intro status top rest h
    subst h
    simp [normalize_id, truthy, pyGetAttr, Except.bind, bind]

/-- Closed instance of the amended C9 theorem: a 404 search, an
empty-result search, and a 200 search whose first item is the `searchItem`
mapping. -/
theorem claim_C9_normalize_id_nullsafe_witness :
    normalize_id ⟨404, Option.some (.list [searchItem])⟩ = .ok nullTriple ∧
    normalize_id ⟨200, Option.some (.list [])⟩ = .ok nullTriple ∧
    normalize_id ⟨200, Option.some (.list [searchItem])⟩ =
      .ok [("id", pyGet [("id", PyVal.str "HGNC:11998"),
              ("full_name", PyVal.str "tumor protein p53"),
              ("category", PyVal.str "biolink:Gene")] "id"),
           ("full_name", pyGet [("id", PyVal.str "HGNC:11998"),
              ("full_name", PyVal.str "tumor protein p53"),
              ("category", PyVal.str "biolink:Gene")] "full_name"),
           ("category", pyGet [("id", PyVal.str "HGNC:11998"),
              ("full_name", PyVal.str "tumor protein p53"),
              ("category", PyVal.str "biolink:Gene")] "category")] :=
  ⟨claim_C9_normalize_id_nullsafe.1 ⟨404, Option.some (.list [searchItem])⟩
      (by decide),
   claim_C9_normalize_id_nullsafe.2.2.1 ⟨200, Option.some (.list [])⟩ rfl,
   claim_C9_normalize_id_nullsafe.2.2.2
     200
     [("id", PyVal.str "HGNC:11998"),
      ("full_name", PyVal.str "tumor protein p53"),
      ("category", PyVal.str "biolink:Gene")]
     [] rfl⟩

set_option maxRecDepth 40000 in
/-- Closed instance of the C3 theorem: the short-page stop conjunct at
the 37-row page the fake backend serves at offset 200. -/
theorem claim_C3_pagination_accumulates_witness :
    paginate backendC3 (perPage 100) Option.none 200 1 =
      (Option.some (extractRows (backendC3 (perPage 100) 200)), [200]) :=
  claim_C3_pagination_accumulates.2.2.2 backendC3 (perPage 100) 200 1
    (by decide) (by decide)
